import Mathlib

/-!
Verification of TermHarvest's turn-based task-budget scheduler and grid
simulation orchestrator, shallowly embedded from src/main.py and
src/aquacrop_manager.py.  Machine integers are modelled as Int, Python
floats as Rat, Python dicts (insertion ordered) as association lists, and
the opaque third-party simulation engine as an abstract state together
with an arbitrary single-day advance function.
-/

namespace TermHarvest

/-- Kinds of queued tasks (src/main.py, enum TaskType). -/
inductive TaskType where
  | investigate
  | irrigate
  | pesticide
  deriving DecidableEq

/-- A pending task, fields in the source's declaration order
(src/main.py, dataclass Task: id, description, cost, task_type,
cost_str, added_date). -/
structure Task where
  id : String
  description : String
  cost : Int
  taskType : Option TaskType
  costStr : String
  addedDate : String
  deriving DecidableEq

/-- Constructing a Task exactly as the call site
`Task(f"T{next_task_id}", description, cost, task_type, current_date)`
in TaskListAP.add_task does: the fifth positional argument lands in the
dataclass field `cost_str` (not `added_date`, which keeps its default ""),
and `__post_init__` then overwrites `cost_str` with `f"{cost} AP"`. -/
def Task.make (tid descr : String) (cost : Int) (ty : Option TaskType)
    ( _costStrArg : String) : Task :=
  { id := tid
    description := descr
    cost := cost
    taskType := ty
    costStr := toString cost ++ " AP"
    addedDate := "" }

/-- The queue-relevant mutable state: GameState's activity-point budget and
current date string together with TaskListAP's pending list and id counter
(src/main.py, GameState and TaskListAP.__init__). -/
structure GState where
  tasks : List Task
  nextTaskId : Int
  activityPointsUsed : Int
  maxActivityPoints : Int
  dateStr : String
  deriving DecidableEq

/-- GameState.can_add_task: `activity_points_used + task_cost <= max_activity_points`. -/
def canAddTask (s : GState) (cost : Int) : Bool :=
  decide (s.activityPointsUsed + cost ≤ s.maxActivityPoints)

/-- TaskListAP.add_task: reject (returning False, no mutation) when the
budget check fails; otherwise append the new task, bump the id counter and
charge the cost (GameState.add_activity_points). -/
def addTask (s : GState) (descr : String) (ty : Option TaskType) (cost : Int) :
    Bool × GState :=
  if canAddTask s cost = false then
    (false, s)
  else
    (true,
      { s with
        tasks := s.tasks ++ [Task.make ("T" ++ toString s.nextTaskId) descr cost ty s.dateStr]
        nextTaskId := s.nextTaskId + 1
        activityPointsUsed := s.activityPointsUsed + cost })

/-- Finding and removing the first pending task with the given id, as the
linear scan plus `list.remove` in TaskListAP.remove_task does; `none` when
no pending task has that id. -/
def removeFirst : List Task → String → Option (Task × List Task)
  | [], _ => none
  | t :: ts, tid =>
    if t.id = tid then some (t, ts)
    else
      match removeFirst ts tid with
      | none => none
      | some p => some (p.1, t :: p.2)

/-- TaskListAP.remove_task: False (no mutation) when the id is absent;
otherwise drop the task and refund its cost, clamped at zero
(`max(0, activity_points_used - task.cost)`). -/
def removeTask (s : GState) (tid : String) : Bool × GState :=
  match removeFirst s.tasks tid with
  | none => (false, s)
  | some p =>
    (true,
      { s with
        tasks := p.2
        activityPointsUsed := max 0 (s.activityPointsUsed - p.1.cost) })

/-- The queue/budget effect of GameScreen.handle_step_simulation (`/step`):
activity points reset to zero, the pending list cleared (after journaling),
the date refreshed from the simulation; the id counter is left alone. -/
def stepClear (s : GState) (newDate : String) : GState :=
  { s with tasks := [], activityPointsUsed := 0, dateStr := newDate }

/-- The cost table of GameScreen.handle_task_add:
Investigate = 1, Irrigate = 2, Pesticide = 1. -/
def commandCost : TaskType → Int
  | TaskType.investigate => 1
  | TaskType.irrigate => 2
  | TaskType.pesticide => 1

/-- The queue commands the UI layer dispatches: `/task add` (with the
kind-determined cost), `/task remove`, and `/step` (commit-and-clear). -/
inductive Cmd where
  | add (kind : TaskType) (descr : String)
  | remove (tid : String)
  | step (newDate : String)

/-- One command applied to the state, also returning the list of numeric
task ids assigned by the command (the counter value rendered into the new
task's id string on a successful add, nothing otherwise). -/
def applyCmd (s : GState) : Cmd → GState × List Int
  | Cmd.add k d =>
    ((addTask s d (some k) (commandCost k)).2,
      if (addTask s d (some k) (commandCost k)).1 = true then [s.nextTaskId] else [])
  | Cmd.remove tid => ((removeTask s tid).2, [])
  | Cmd.step nd => (stepClear s nd, [])

/-- Running a command sequence, accumulating the assigned-id trace. -/
def runCmds : GState → List Cmd → GState × List Int
  | s, [] => (s, [])
  | s, c :: cs =>
    ((runCmds (applyCmd s c).1 cs).1,
      (applyCmd s c).2 ++ (runCmds (applyCmd s c).1 cs).2)

/-- The initial state: no pending tasks, id counter at 1 (TaskListAP.__init__),
zero activity points used out of a maximum of 4 (GameState defaults), and the
date string read from the simulation at startup. -/
def initState (d : String) : GState :=
  { tasks := []
    nextTaskId := 1
    activityPointsUsed := 0
    maxActivityPoints := 4
    dateStr := d }

/-- The slice of the opaque third-party engine's per-unit state that the
orchestrator reads or writes (src/aquacrop_manager.py): the clock's
`model_is_finished`, `season_counter` and `step_start_time` (a date modelled
as a day number), and the initial-condition fields `th` (stored soil water
content), `canopy_cover`, `biomass`, `precipitation`, `temp_min`, `temp_max`
and `et0`.  How a day's advance transforms this state is opaque, so every
definition below takes the engine's single-day advance
(`model._perform_timestep`) as an arbitrary function argument. -/
structure EngineState where
  modelIsFinished : Bool
  th : ℚ
  canopyCover : ℚ
  biomass : ℚ
  seasonCounter : Int
  stepStartTime : Int
  precipitation : ℚ
  tempMin : ℚ
  tempMax : ℚ
  et0 : ℚ
  deriving DecidableEq

/-- dataclass FarmSector: one grid unit, its engine handle and append-only
canopy-cover history. -/
structure FarmSector where
  model : EngineState
  sectorId : String
  canopyCoverHistory : List ℚ
  deriving DecidableEq

/-- One daily climate record of the shared weather series
(columns Date, MinTemp, MaxTemp, Precipitation, ReferenceET). -/
structure WeatherRecord where
  date : Int
  minTemp : ℚ
  maxTemp : ℚ
  precipitation : ℚ
  referenceET : ℚ
  deriving DecidableEq

/-- dataclass SessionWeather: a session's weather summary. -/
structure SessionWeather where
  sessionDate : Int
  minTemp : ℚ
  maxTemp : ℚ
  precipitation : ℚ
  deriving DecidableEq

/-- The error a Python name lookup of an unbound local raises. -/
inductive PyError where
  | nameError
  deriving DecidableEq

/-- AquaCropManager's state: the sector dict (insertion-ordered, keyed by the
sector's own id, hence a list of FarmSector), the per-day soil-water penalty
fraction (0.03 in __init__), the session length in days (30), the previous
and current session dates, the penalised sector ids and the shared weather
series. -/
structure AquaCropManager where
  sectors : List FarmSector
  tawPenalty : ℚ
  sessionDays : Int
  previousSession : Option Int
  currentSession : Int
  drySectors : List String
  weather : List WeatherRecord
  deriving DecidableEq

/-- The per-sector body of the daily loop in AquaCropManager.step_simulation:
a finished sector is left untouched; otherwise, if the sector is dry, its
stored soil water content is first multiplied by `1 - taw_penalty`, then the
engine's single-day advance runs, and the resulting canopy cover is appended
to the sector's history. -/
def stepSector (perform : EngineState → EngineState) (pen : ℚ)
    (dry : List String) (s : FarmSector) : FarmSector :=
  if s.model.modelIsFinished then s
  else
    { model :=
        perform (if s.sectorId ∈ dry then
                  { s.model with th := s.model.th * (1 - pen) }
                else s.model)
      sectorId := s.sectorId
      canopyCoverHistory :=
        s.canopyCoverHistory ++
          [(perform (if s.sectorId ∈ dry then
                      { s.model with th := s.model.th * (1 - pen) }
                    else s.model)).canopyCover] }

/-- One day of step_simulation's outer loop: every sector is advanced once,
in dict order. -/
def advanceDay (perform : EngineState → EngineState) (pen : ℚ)
    (dry : List String) (secs : List FarmSector) : List FarmSector :=
  secs.map (stepSector perform pen dry)

/-- The day loop of step_simulation iterated `days` times. -/
def advanceDays (perform : EngineState → EngineState) (pen : ℚ)
    (dry : List String) : Nat → List FarmSector → List FarmSector
  | 0, secs => secs
  | Nat.succ n, secs => advanceDays perform pen dry n (advanceDay perform pen dry secs)

/-- AquaCropManager.get_session_date: the first sector's `step_start_time`.
On an empty dict the source's `next(iter(...))` would raise StopIteration;
that case is unreachable because initialize_farm always populates the grid,
and is modelled as leaving the current session date unchanged. -/
def getSessionDate (m : AquaCropManager) (secs : List FarmSector) : Int :=
  match secs with
  | [] => m.currentSession
  | s :: _ => s.model.stepStartTime

/-- AquaCropManager.step_simulation: run the day loop over all sectors, then
refresh `current_session` from the shared clock.  (The remaining statements
only log.) -/
def stepSimulation (perform : EngineState → EngineState) (days : Nat)
    (m : AquaCropManager) : AquaCropManager :=
  { m with
    sectors := advanceDays perform m.tawPenalty m.drySectors days m.sectors
    currentSession :=
      getSessionDate m (advanceDays perform m.tawPenalty m.drySectors days m.sectors) }

/-- AquaCropManager.get_current_canopy_cover: sector id to current canopy
cover, in dict order. -/
def getCurrentCanopyCover (m : AquaCropManager) : List (String × ℚ) :=
  m.sectors.map fun s => (s.sectorId, s.model.canopyCover)

/-- AquaCropManager.get_current_biomass: sector id to current biomass. -/
def getCurrentBiomass (m : AquaCropManager) : List (String × ℚ) :=
  m.sectors.map fun s => (s.sectorId, s.model.biomass)

/-- AquaCropManager.get_current_hydration, translated exactly as written at
src/aquacrop_manager.py line 177: it reads `sector.model._init_cond.biomass`,
not the stored soil water content `th`. -/
def getCurrentHydration (m : AquaCropManager) : List (String × ℚ) :=
  m.sectors.map fun s => (s.sectorId, s.model.biomass)

/-- AquaCropManager.get_current_season: 1 when no sectors exist, otherwise
the first sector's season counter plus 1 (the displayed index). -/
def getCurrentSeason (m : AquaCropManager) : Int :=
  match m.sectors with
  | [] => 1
  | s :: _ => s.model.seasonCounter + 1

/-- AquaCropManager.get_current_date: the string "1979-10-01" when no sectors
exist, otherwise the first sector's `step_start_time` rendered by strftime
("%Y-%m-%d"); the external date formatter is passed in as `fmt`.  (The
source's AttributeError fallback cannot fire in this typed model, where the
clock field is always a date.) -/
def getCurrentDate (fmt : Int → String) (m : AquaCropManager) : String :=
  match m.sectors with
  | [] => "1979-10-01"
  | s :: _ => fmt s.model.stepStartTime

/-- The dict returned by AquaCropManager.get_current_weather, with its four
fixed keys as fields. -/
structure CurrentWeather where
  precipitation : ℚ
  minTemp : ℚ
  maxTemp : ℚ
  et0 : ℚ
  deriving DecidableEq

/-- AquaCropManager.get_current_weather: all-zero values when no sectors
exist, otherwise the first sector's current weather fields. -/
def getCurrentWeather (m : AquaCropManager) : CurrentWeather :=
  match m.sectors with
  | [] => { precipitation := 0, minTemp := 0, maxTemp := 0, et0 := 0 }
  | s :: _ =>
    { precipitation := s.model.precipitation
      minTemp := s.model.tempMin
      maxTemp := s.model.tempMax
      et0 := s.model.et0 }

/-- np.average of a list of rationals (sum divided by length; the empty list,
NaN under numpy, is modelled as 0 — no claim below touches that case). -/
def listAverage (xs : List ℚ) : ℚ := xs.sum / (xs.length : ℚ)

/-- The forecast window of AquaCropManager.weather_data: records with
`current_session < Date <= current_session + session_days`. -/
def forecastWindow (m : AquaCropManager) : List WeatherRecord :=
  m.weather.filter fun r =>
    decide (m.currentSession < r.date ∧ r.date ≤ m.currentSession + m.sessionDays)

/-- The forecast summary of AquaCropManager.weather_data: average MinTemp,
average MaxTemp, and average Precipitation times the literal 30. -/
def forecastSessionWeather (m : AquaCropManager) : SessionWeather :=
  { sessionDate := m.currentSession
    minTemp := listAverage ((forecastWindow m).map fun r => r.minTemp)
    maxTemp := listAverage ((forecastWindow m).map fun r => r.maxTemp)
    precipitation := listAverage ((forecastWindow m).map fun r => r.precipitation) * 30 }

/-- AquaCropManager.weather_data.  When `previous_session` is None the
previous-session summary is None and only the forecast is computed.  When a
previous session exists, the source (lines 215-217) filters the series with
the bare names `previous_session` and `current_session`, which are bound
nowhere in the function's scope, so evaluating that branch raises NameError
before any statistic is computed; the branch is therefore modelled as that
raised error. -/
def weatherData (m : AquaCropManager) :
    Except PyError (Option SessionWeather × SessionWeather) :=
  match m.previousSession with
  | none => Except.ok (none, forecastSessionWeather m)
  | some _ => Except.error PyError.nameError

/-! Concrete fixtures used to evaluate the definitions on explicit inputs. -/

/-- A baseline engine state (day zero, nothing grown, not finished). -/
def engine0 : EngineState :=
  { modelIsFinished := false
    th := 0
    canopyCover := 0
    biomass := 0
    seasonCounter := 0
    stepStartTime := 0
    precipitation := 0
    tempMin := 0
    tempMax := 0
    et0 := 0 }

/-- A concrete single-day engine advance used to instantiate the opaque
engine: it grows canopy by 1 and moves the clock one day. -/
def perfWitness (e : EngineState) : EngineState :=
  { e with canopyCover := e.canopyCover + 1, stepStartTime := e.stepStartTime + 1 }

/-- A two-sector grid whose engines both report finished. -/
def finishedMgr : AquaCropManager :=
  { sectors :=
      [ { model := { engine0 with modelIsFinished := true, canopyCover := 1/2 }
          sectorId := "A1"
          canopyCoverHistory := [1/4, 1/2] },
        { model := { engine0 with modelIsFinished := true, canopyCover := 3/4 }
          sectorId := "A2"
          canopyCoverHistory := [3/4] } ]
    tawPenalty := 3/100
    sessionDays := 30
    previousSession := some 0
    currentSession := 30
    drySectors := ["A1"]
    weather := [] }

/-- An unfinished sector with stored soil water content 10, listed dry. -/
def drySector : FarmSector :=
  { model := { engine0 with th := 10, canopyCover := 4 }
    sectorId := "B2"
    canopyCoverHistory := [1] }

/-- A manager before any session has advanced: no previous session date. -/
def mgrNoPrev : AquaCropManager :=
  { sectors :=
      [ { model := engine0, sectorId := "A1", canopyCoverHistory := [] } ]
    tawPenalty := 3/100
    sessionDays := 30
    previousSession := none
    currentSession := 0
    drySectors := []
    weather :=
      [ { date := 1, minTemp := 10, maxTemp := 20, precipitation := 2, referenceET := 1 },
        { date := 2, minTemp := 12, maxTemp := 24, precipitation := 0, referenceET := 1 } ] }

/-- A manager after at least one session: a previous session date exists. -/
def mgrPrev : AquaCropManager :=
  { sectors :=
      [ { model := { engine0 with stepStartTime := 130 }, sectorId := "A1"
          canopyCoverHistory := [1/2] } ]
    tawPenalty := 3/100
    sessionDays := 30
    previousSession := some 100
    currentSession := 130
    drySectors := []
    weather :=
      [ { date := 110, minTemp := 5, maxTemp := 18, precipitation := 3, referenceET := 1 },
        { date := 120, minTemp := 7, maxTemp := 22, precipitation := 1, referenceET := 1 } ] }

/-- A manager whose grid was never initialized: no sectors exist. -/
def emptyMgr : AquaCropManager :=
  { sectors := []
    tawPenalty := 3/100
    sessionDays := 30
    previousSession := none
    currentSession := 0
    drySectors := []
    weather := [] }

/-- A one-sector grid whose unit has biomass 7 and stored soil water 1/2,
so the two metrics are distinguishable. -/
def hydrMgr : AquaCropManager :=
  { sectors :=
      [ { model := { engine0 with biomass := 7, th := 1/2 }
          sectorId := "A1"
          canopyCoverHistory := [] } ]
    tawPenalty := 3/100
    sessionDays := 30
    previousSession := none
    currentSession := 0
    drySectors := []
    weather := [] }

/-- The state of the claim's admission-rejection scenario: two pending
Irrigate tasks of cost 2 each, 4 of 4 activity points used. -/
def budgetState : GState :=
  { tasks :=
      [ Task.make "T1" "Irrigate A1 20mm" 2 (some TaskType.irrigate) "1979-10-01",
        Task.make "T2" "Irrigate B2 20mm" 2 (some TaskType.irrigate) "1979-10-01" ]
    nextTaskId := 3
    activityPointsUsed := 4
    maxActivityPoints := 4
    dateStr := "1979-10-01" }

/-! Theorems. -/

lemma removeFirst_perm (tid : String) :
    ∀ (ts : List Task) (p : Task × List Task),
      removeFirst ts tid = some p → List.Perm ts (p.1 :: p.2) := by
  intro ts
  induction ts with
  | nil => intro p h; simp [removeFirst] at h
  | cons a t ih =>
    intro p h
    by_cases ha : a.id = tid
    · simp only [removeFirst, if_pos ha, Option.some.injEq] at h
      rw [h.symm]  -- wait direction; see below
    · simp only [removeFirst, if_neg ha] at h
      rcases hr : removeFirst t tid with _ | q
      · rw [hr] at h; cases h
      · rw [hr] at h
        simp only [Option.some.injEq] at h
        have hperm := ih q hr
        rw [h.symm]
        exact (List.Perm.cons a hperm).trans (List.Perm.swap q.1 a q.2)

lemma applyCmd_budget (s : GState) (c : Cmd)
    (h1 : ∀ t ∈ s.tasks, 0 ≤ t.cost)
    (h2 : s.activityPointsUsed = (s.tasks.map Task.cost).sum) :
    (∀ t ∈ (applyCmd s c).1.tasks, 0 ≤ t.cost)
    ∧ (applyCmd s c).1.activityPointsUsed
        = ((applyCmd s c).1.tasks.map Task.cost).sum := by
  cases c with
  | add k d =>
    by_cases hc : canAddTask s (commandCost k) = false
    · simp only [applyCmd, addTask, if_pos hc]
      exact ⟨h1, h2⟩
    · simp only [applyCmd, addTask, if_neg hc]
      constructor
      · intro t ht
        rcases List.mem_append.mp ht with h3 | h3
        · exact h1 t h3
        · rw [List.mem_singleton.mp h3]
          cases k <;> simp [Task.make, commandCost]
      · simp only [List.map_append, List.sum_append, List.map_cons, List.map_nil,
          List.sum_cons, List.sum_nil, Task.make]
        omega
  | remove tid =>
    rcases hr : removeFirst s.tasks tid with _ | p
    · simp only [applyCmd, removeTask, hr]
      exact ⟨h1, h2⟩
    · have hperm := removeFirst_perm tid s.tasks p hr
      have hmem : ∀ u ∈ p.2, u ∈ s.tasks := fun u hu =>
        hperm.mem_iff.mpr (List.mem_cons_of_mem _ hu)
      have hsum : (s.tasks.map Task.cost).sum = p.1.cost + (p.2.map Task.cost).sum := by
        have h4 := (hperm.map Task.cost).sum_eq
        simpa using h4
      have hrest : 0 ≤ (p.2.map Task.cost).sum := by
        apply List.sum_nonneg
        intro x hx
        rcases List.mem_map.mp hx with ⟨u, hu, rfl⟩
        exact h1 u (hmem u hu)
      simp only [applyCmd, removeTask, hr]
      refine ⟨fun t ht => h1 t (hmem t ht), ?_⟩
      have h5 : s.activityPointsUsed - p.1.cost = (p.2.map Task.cost).sum := by omega
      rw [h5]
      exact max_eq_right hrest
  | step nd =>
    simp only [applyCmd, stepClear]
    exact ⟨fun t ht => by simp at ht, by simp⟩

lemma runCmds_budget : ∀ (cs : List Cmd) (s : GState),
    (∀ t ∈ s.tasks, 0 ≤ t.cost) →
    s.activityPointsUsed = (s.tasks.map Task.cost).sum →
    (∀ t ∈ (runCmds s cs).1.tasks, 0 ≤ t.cost)
    ∧ (runCmds s cs).1.activityPointsUsed
        = ((runCmds s cs).1.tasks.map Task.cost).sum := by
  intro cs
  induction cs with
  | nil => intro s h1 h2; exact ⟨h1, h2⟩
  | cons c cs ih =>
    intro s h1 h2
    obtain ⟨g1, g2⟩ := applyCmd_budget s c h1 h2
    exact ih (applyCmd s c).1 g1 g2

/-- Claim C1: budget conservation.  Starting from the initial state (no
pending tasks, zero activity points used), after any sequence of queue
commands — and hence after every prefix, i.e. after every single
operation — the activity points used equal the sum of the costs of the
currently pending tasks. -/
theorem budget_conservation (d : String) (cs : List Cmd) :
    ((runCmds (initState d) cs).1).activityPointsUsed
      = (((runCmds (initState d) cs).1).tasks.map Task.cost).sum :=
  (runCmds_budget cs (initState d)
    (by intro t ht; simp [initState] at ht) (by simp [initState])).2

lemma removeTask_nextId (s : GState) (tid : String) :
    ((removeTask s tid).2).nextTaskId = s.nextTaskId := by
  rcases hr : removeFirst s.tasks tid with _ | p <;> simp [removeTask, hr]

lemma runCmds_trace : ∀ (cs : List Cmd) (s : GState),
    List.Pairwise (fun a b : Int => a < b) (runCmds s cs).2
    ∧ ∀ x ∈ (runCmds s cs).2, s.nextTaskId ≤ x := by
  intro cs
  induction cs with
  | nil =>
    intro s
    refine ⟨by simp [runCmds], ?_⟩
    intro x hx
    simp [runCmds] at hx
  | cons c cs ih =>
    intro s
    cases c with
    | add k d =>
      by_cases hc : canAddTask s (commandCost k) = false
      · have e1 : applyCmd s (Cmd.add k d) = (s, []) := by
          simp [applyCmd, addTask, if_pos hc]
        obtain ⟨p1, p2⟩ := ih s
        refine ⟨?_, ?_⟩
        · simpa [runCmds, e1] using p1
        · intro x hx
          simp only [runCmds, e1, List.nil_append] at hx
          exact p2 x hx
      · have e2 : (applyCmd s (Cmd.add k d)).2 = [s.nextTaskId] := by
          simp [applyCmd, addTask, if_neg hc]
        have e3 : ((applyCmd s (Cmd.add k d)).1).nextTaskId = s.nextTaskId + 1 := by
          simp [applyCmd, addTask, if_neg hc]
        obtain ⟨p1, p2⟩ := ih (applyCmd s (Cmd.add k d)).1
        have etr : (runCmds s (Cmd.add k d :: cs)).2
            = s.nextTaskId :: (runCmds (applyCmd s (Cmd.add k d)).1 cs).2 := by
          simp only [runCmds, e2, List.singleton_append]
        refine ⟨?_, ?_⟩
        · rw [etr]
          refine List.pairwise_cons.mpr ⟨?_, p1⟩
          intro x hx
          have h6 := p2 x hx
          omega
        · intro x hx
          rw [etr] at hx
          rcases List.mem_cons.mp hx with rfl | hx2
          · exact le_refl _
          · have h6 := p2 x hx2
            omega
    | remove tid =>
      have e3 : ((applyCmd s (Cmd.remove tid)).1).nextTaskId = s.nextTaskId :=
        removeTask_nextId s tid
      obtain ⟨p1, p2⟩ := ih (applyCmd s (Cmd.remove tid)).1
      refine ⟨?_, ?_⟩
      · simpa [runCmds, applyCmd] using p1
      · intro x hx
        simp only [runCmds, applyCmd, List.nil_append] at hx
        have h6 := p2 x hx
        omega
    | step nd =>
      obtain ⟨p1, p2⟩ := ih (applyCmd s (Cmd.step nd)).1
      refine ⟨?_, ?_⟩
      · simpa [runCmds, applyCmd] using p1
      · intro x hx
        simp only [runCmds, applyCmd, List.nil_append] at hx
        exact p2 x hx

/-- Claim C2: id monotonicity.  Across any sequence of add, remove and
commit-and-clear commands from the initial state, the numeric ids assigned
to newly added tasks strictly increase in assignment order, so no id is
ever assigned twice — and the id counter is untouched by the
commit-and-clear step. -/
theorem id_monotonic (d : String) (cs : List Cmd) :
    List.Pairwise (fun a b : Int => a < b) (runCmds (initState d) cs).2
    ∧ ((runCmds (initState d) cs).2).Nodup
    ∧ ∀ (s : GState) (nd : String), (stepClear s nd).nextTaskId = s.nextTaskId := by
  obtain ⟨p1, _⟩ := runCmds_trace cs (initState d)
  exact ⟨p1, p1.imp (fun h => ne_of_lt h), fun s nd => rfl⟩

lemma stepSector_finished (perform : EngineState → EngineState) (pen : ℚ)
    (dry : List String) (s : FarmSector) (h : s.model.modelIsFinished = true) :
    stepSector perform pen dry s = s := by
  simp [stepSector, h]

lemma advanceDay_finished (perform : EngineState → EngineState) (pen : ℚ)
    (dry : List String) :
    ∀ secs, (∀ s ∈ secs, s.model.modelIsFinished = true) →
      advanceDay perform pen dry secs = secs := by
  intro secs
  induction secs with
  | nil => intro h; rfl
  | cons a t ih =>
    intro h
    have h2 : advanceDay perform pen dry t = t :=
      ih (fun s hs => h s (List.mem_cons_of_mem a hs))
    simp only [advanceDay, List.map_cons] at h2 ⊢
    rw [stepSector_finished perform pen dry a (h a (List.mem_cons_self a t)), h2]

lemma advanceDays_finished (perform : EngineState → EngineState) (pen : ℚ)
    (dry : List String) :
    ∀ (n : Nat) (secs), (∀ s ∈ secs, s.model.modelIsFinished = true) →
      advanceDays perform pen dry n secs = secs := by
  intro n
  induction n with
  | zero => intro secs h; rfl
  | succ k ih =>
    intro secs h
    simp only [advanceDays]
    rw [advanceDay_finished perform pen dry secs h]
    exact ih secs h

/-- Claim C3: idempotent termination.  When every unit's engine reports
finished, step_simulation over any number of days leaves every unit's
canopy-cover history unchanged in length and values. -/
theorem finished_noop (perform : EngineState → EngineState) (days : Nat)
    (m : AquaCropManager) (h : ∀ s ∈ m.sectors, s.model.modelIsFinished = true) :
    (stepSimulation perform days m).sectors.map FarmSector.canopyCoverHistory
      = m.sectors.map FarmSector.canopyCoverHistory := by
  simp [stepSimulation,
    advanceDays_finished perform m.tawPenalty m.drySectors days m.sectors h]

/-- Witness for C3: a concrete all-finished grid keeps its histories under
five further advanced days of a concrete engine. -/
theorem finished_noop_witness :
    (∀ s ∈ finishedMgr.sectors, s.model.modelIsFinished = true)
    ∧ (stepSimulation perfWitness 5 finishedMgr).sectors.map FarmSector.canopyCoverHistory
        = finishedMgr.sectors.map FarmSector.canopyCoverHistory :=
  ⟨by decide, finished_noop perfWitness 5 finishedMgr (by decide)⟩

/-- Claim C4: whenever adding a task would push the activity points used
past the maximum of 4, TaskListAP.add_task fails with the distinguishable
failure signal (returns false) and mutates nothing: the state is returned
unchanged. -/
theorem reject_no_mutation (s : GState) (descr : String) (ty : Option TaskType)
    (cost : Int) (hmax : s.maxActivityPoints = 4)
    (hover : s.maxActivityPoints < s.activityPointsUsed + cost) :
    addTask s descr ty cost = (false, s) := by
  have hc : canAddTask s cost = false := by
    simp only [canAddTask, decide_eq_false_iff_not]
    omega
  simp [addTask, hc]

/-- Witness for C4: with two pending cost-2 Irrigate tasks and 4 of 4
activity points used, adding a cost-1 Pesticide task fails, the points
used stay 4 and the queue length stays 2. -/
theorem reject_no_mutation_witness :
    addTask budgetState "Pesticide A1" (some TaskType.pesticide) 1 = (false, budgetState)
    ∧ budgetState.activityPointsUsed = 4
    ∧ budgetState.tasks.length = 2 :=
  ⟨reject_no_mutation budgetState "Pesticide A1" (some TaskType.pesticide) 1 rfl
      (by decide), rfl, rfl⟩

/-- Claim C5: in the daily loop of step_simulation, a not-yet-finished unit
with the soil penalty has its stored soil water content multiplied by
1 - 0.03 strictly before the engine's single-day advance runs: the engine
is invoked on a state whose water content is the prior value times
1 - 3/100, and everything else follows from that advanced state. -/
theorem penalty_before_advance (perform : EngineState → EngineState)
    (dry : List String) (s : FarmSector) (hdry : s.sectorId ∈ dry)
    (hfin : s.model.modelIsFinished = false) :
    stepSector perform (3/100) dry s =
      { model := perform { s.model with th := s.model.th * (1 - 3/100) }
        sectorId := s.sectorId
        canopyCoverHistory :=
          s.canopyCoverHistory ++
            [(perform { s.model with th := s.model.th * (1 - 3/100) }).canopyCover] } := by
  simp [stepSector, hfin, hdry]

/-- Witness for C5: a dry, unfinished sector with water content 10 hands the
engine a state with water content 10 * (1 - 3/100) = 97/10. -/
theorem penalty_before_advance_witness :
    drySector.sectorId ∈ ["A1", "B2"]
    ∧ drySector.model.modelIsFinished = false
    ∧ stepSector perfWitness (3/100) ["A1", "B2"] drySector =
        { model := perfWitness { drySector.model with th := drySector.model.th * (1 - 3/100) }
          sectorId := drySector.sectorId
          canopyCoverHistory :=
            drySector.canopyCoverHistory ++
              [(perfWitness { drySector.model with th := drySector.model.th * (1 - 3/100) }).canopyCover] }
    ∧ (stepSector perfWitness (3/100) ["A1", "B2"] drySector).model.th = 97/10 :=
  ⟨by decide, rfl,
    penalty_before_advance perfWitness ["A1", "B2"] drySector (by decide) rfl,
    by norm_num [stepSector, drySector, perfWitness, engine0]⟩

/-- Claim C6: whenever a previous session date is present,
AquaCropManager.weather_data does not return the min/max/sum summary the
claim describes: the branch reads the unbound names previous_session and
current_session (src/aquacrop_manager.py lines 215-217) and raises
NameError. -/
theorem weather_prev_raises (m : AquaCropManager) (d : Int)
    (h : m.previousSession = some d) :
    weatherData m = Except.error PyError.nameError := by
  simp [weatherData, h]

/-- Witness for C6: a manager with previous session date 100 makes
weather_data raise. -/
theorem weather_prev_raises_witness :
    weatherData mgrPrev = Except.error PyError.nameError :=
  weather_prev_raises mgrPrev 100 rfl

/-- Claim C7: before any session has advanced (previous session date
absent), weather_data returns the explicit no-data value None for the
previous-session summary, not fabricated zeroes. -/
theorem weather_no_prev (m : AquaCropManager) (h : m.previousSession = none) :
    weatherData m = Except.ok (none, forecastSessionWeather m) := by
  simp [weatherData, h]

/-- Witness for C7: a freshly built manager yields None for the
previous-session summary. -/
theorem weather_no_prev_witness :
    weatherData mgrNoPrev = Except.ok (none, forecastSessionWeather mgrNoPrev) :=
  weather_no_prev mgrNoPrev rfl

/-- Claim C8: a successful add does not record the current session date on
the task.  The call Task(f"T{id}", description, cost, task_type,
current_date) passes the date into the positional slot of cost_str, which
__post_init__ immediately overwrites, so added_date stays "" even though
the state's date string is "1979-10-01". -/
theorem task_date_dropped :
    ((addTask (initState "1979-10-01") "Investigate A1" (some TaskType.investigate) 1).1 = true)
    ∧ ((addTask (initState "1979-10-01") "Investigate A1"
          (some TaskType.investigate) 1).2.tasks.map Task.addedDate = [""])
    ∧ (initState "1979-10-01").dateStr = "1979-10-01" :=
  ⟨rfl, rfl, rfl⟩

/-- Counterexample for C9: on an uninitialized grid, get_current_season
returns the sentinel 1 (the displayed index for internal counter 0), not 0
as the claim states; and the canopy-cover read returns the empty mapping
rather than a 0.0 value. -/
theorem season_sentinel_not_zero :
    getCurrentSeason emptyMgr = 1
    ∧ ¬ getCurrentSeason emptyMgr = 0
    ∧ getCurrentCanopyCover emptyMgr = [] := by
  refine ⟨rfl, by decide, rfl⟩

/-- Claim C9 as amended: every read performed before grid initialization
(no sectors exist) returns a sentinel instead of failing — the current date
"1979-10-01" (the configured simulation start date), season index 1, all
current-weather fields 0.0, and the empty canopy-cover mapping. -/
theorem uninit_reads (m : AquaCropManager) (fmt : Int → String)
    (h : m.sectors = []) :
    getCurrentSeason m = 1
    ∧ getCurrentDate fmt m = "1979-10-01"
    ∧ getCurrentWeather m = { precipitation := 0, minTemp := 0, maxTemp := 0, et0 := 0 }
    ∧ getCurrentCanopyCover m = [] := by
  simp [getCurrentSeason, getCurrentDate, getCurrentWeather, getCurrentCanopyCover, h]

/-- Witness for amended C9: the sentinel reads on a concrete empty grid. -/
theorem uninit_reads_witness :
    getCurrentSeason emptyMgr = 1
    ∧ getCurrentDate (fun n => toString n) emptyMgr = "1979-10-01"
    ∧ getCurrentWeather emptyMgr = { precipitation := 0, minTemp := 0, maxTemp := 0, et0 := 0 }
    ∧ getCurrentCanopyCover emptyMgr = [] :=
  uninit_reads emptyMgr (fun n => toString n) rfl

/-- Claim C10: the stored-water aggregate does not return the stored soil
water value.  On a unit with biomass 7 and stored water 1/2,
get_current_hydration returns 7 — it coincides with the biomass aggregate,
not with the per-unit water contents. -/
theorem hydration_returns_biomass :
    getCurrentHydration hydrMgr = [("A1", (7 : ℚ))]
    ∧ (hydrMgr.sectors.map fun s => (s.sectorId, s.model.th)) = [("A1", (1/2 : ℚ))]
    ∧ getCurrentHydration hydrMgr = getCurrentBiomass hydrMgr
    ∧ getCurrentHydration hydrMgr ≠ hydrMgr.sectors.map fun s => (s.sectorId, s.model.th) := by
  refine ⟨rfl, rfl, rfl, by norm_num [getCurrentHydration, hydrMgr, engine0]⟩

end TermHarvest
